import Mathlib

/-!
Verification development for the `crm-family-app` repository (a family
finance tracker).  The definitions below are a shallow embedding of the
Python source, chiefly `src/financas8.py`:

* the monthly cash-flow projection built inside
  `render_detailed_analysis_section` (lines 583-646), covering the
  recurrence/installment "Expander" and the "Monthly Aggregator";
* the SQLite-backed record-store operations `add_transaction`,
  `delete_transaction`, `update_transaction`, `get_summary`
  (together with the validation guard of
  `render_unified_transaction_form`);
* the credential helpers `make_hashes` / `check_hashes`
  (`src/financas8.py` lines 27-33, identical in `src/login.py`).

Money amounts (SQL `REAL`, Python floats) are modelled as exact rationals
(`ℚ`); Python exceptions that can escape the projection loop are modelled
with `Except PyErr`.
-/

/-- A calendar date, as Python's `datetime.date` (year, month, day). -/
structure Date where
  year : Nat
  month : Nat
  day : Nat
deriving DecidableEq, Repr

/-- Gregorian leap-year rule, as implemented by Python's `datetime`. -/
def isLeap (y : Nat) : Bool :=
  (y % 4 == 0 && y % 100 != 0) || (y % 400 == 0)

/-- Number of days in month `m` of year `y` (Python `calendar`/`datetime`). -/
def daysInMonth (y m : Nat) : Nat :=
  if m == 2 then (if isLeap y then 29 else 28)
  else if m == 4 || m == 6 || m == 9 || m == 11 then 30
  else 31

/-- Python `date` comparison `a < b` (lexicographic on year, month, day). -/
def dateLt (a b : Date) : Bool :=
  a.year < b.year ||
    (a.year == b.year &&
      (a.month < b.month || (a.month == b.month && a.day < b.day)))

/-- Python `date` comparison `a <= b`. -/
def dateLe (a b : Date) : Bool :=
  dateLt a b || a == b

/-- `d.strftime("%Y-%m")`: the month key used by the projection dict,
modelled as the (year, month) pair instead of the formatted string. -/
def monthKey (d : Date) : Nat × Nat := (d.year, d.month)

/-- `d + pd.DateOffset(months=k)` (relativedelta semantics: month
arithmetic with the day clamped to the length of the target month). -/
def addMonths (d : Date) (k : Nat) : Date :=
  let t := d.month - 1 + k
  let y := d.year + t / 12
  let m := t % 12 + 1
  { year := y, month := m, day := min d.day (daysInMonth y m) }

/-- `today.replace(day=1)` — the first day of the current month, used by
the paid-expense filter of the projection. -/
def firstOfMonth (d : Date) : Date :=
  { d with day := 1 }

/-- Splits a character list on `'-'`, as Python's `"...".split('-')`
(so `"a--b"` gives three groups, the middle one empty). -/
def splitDash : List Char → List (List Char)
  | [] => [[]]
  | c :: rest =>
    let r := splitDash rest
    if c == '-' then [] :: r
    else
      match r with
      | g :: gs => (c :: g) :: gs
      | [] => [[c]]

/-- Interprets a nonempty all-digit character group as a number;
`none` when the group is empty or contains a non-digit. -/
def digitGroupToNat : List Char → Option Nat
  | cs =>
    if cs.isEmpty then none
    else if cs.all Char.isDigit then
      some (cs.foldl (fun n c => n * 10 + (c.toNat - 48)) 0)
    else none

/-- `datetime.strptime(s, "%Y-%m-%d").date()`: three dash-separated digit
groups (year up to 4 digits, month and day up to 2) forming a valid
calendar date; any other input raises `ValueError`, modelled as `none`. -/
def strptimeYmd (s : String) : Option Date :=
  match splitDash s.toList with
  | [ys, ms, ds] =>
    if ys.length ≤ 4 && ms.length ≤ 2 && ds.length ≤ 2 then
      match digitGroupToNat ys, digitGroupToNat ms, digitGroupToNat ds with
      | some y, some m, some d =>
        if 1 ≤ m && m ≤ 12 && 1 ≤ d && d ≤ daysInMonth y m then
          some { year := y, month := m, day := d }
        else none
      | _, _, _ => none
    else none
  | _ => none

/-- A Python exception escaping the projection loop of
`render_detailed_analysis_section`:
`attributeError` for `pd.DateOffset(months=i).date()` (the `DateOffset`
object has no `date` attribute), `valueError` for a failing
`datetime.strptime` (and, more generally, an unparsable
installment-date payload). -/
inductive PyErr where
  | attributeError
  | valueError
deriving DecidableEq, Repr

/-- One row of the `transacoes` DataFrame as consumed by the projection:
the columns `Data`, `Valor`, `Tipo`, `Forma Recebimento`,
`Datas Parcelas Receita`, `Recorrente`, `Vezes Recorrencia`, `Status`.
The `Datas Parcelas Receita` TEXT column is modelled after JSON decoding
as `Option (List String)` (`none` for SQL NULL / the empty string, which
are the falsy values of the Python truthiness test `row['Datas Parcelas
Receita']`); unparsable entries are then individual date strings rejected
by `strptimeYmd`. -/
structure Row where
  data : Date
  valor : ℚ
  tipo : String
  formaRecebimento : Option String
  datasParcelas : Option (List String)
  recorrente : Option String
  vezesRecorrencia : Option Int
  status : Option String
deriving DecidableEq, Repr

/-- One `projection_data` bucket: accumulated `Receitas` and `Despesas`
for a window month (`Saldo` is derived at the end). -/
structure Bucket where
  receitas : ℚ
  despesas : ℚ
deriving DecidableEq, Repr

/-- The `projection_data` dict: one bucket per window month
(current month plus the next three, in order). -/
structure ProjState where
  b0 : Bucket
  b1 : Bucket
  b2 : Bucket
  b3 : Bucket
deriving DecidableEq, Repr

/-- The initial `projection_data`: every bucket zero. -/
def projZero : ProjState :=
  { b0 := ⟨0, 0⟩, b1 := ⟨0, 0⟩, b2 := ⟨0, 0⟩, b3 := ⟨0, 0⟩ }

/-- The i-th window month key:
`(datetime.now().date() + pd.DateOffset(months=i)).strftime("%Y-%m")`. -/
def wkey (today : Date) (i : Nat) : Nat × Nat :=
  monthKey (addMonths today i)

/-- Adds `v` to one side of one bucket. -/
def Bucket.addSide (b : Bucket) (isReceita : Bool) (v : ℚ) : Bucket :=
  if isReceita then { b with receitas := b.receitas + v }
  else { b with despesas := b.despesas + v }

/-- `if month_key in projection_data: projection_data[month_key][side] += v`
— the guarded dict update used throughout the projection loop.  The four
window keys are compared in order; a key outside the window leaves the
state unchanged (contributions outside the window are dropped). -/
def addBucket (today : Date) (k : Nat × Nat) (isReceita : Bool) (v : ℚ)
    (s : ProjState) : ProjState :=
  if k = wkey today 0 then { s with b0 := s.b0.addSide isReceita v }
  else if k = wkey today 1 then { s with b1 := s.b1.addSide isReceita v }
  else if k = wkey today 2 then { s with b2 := s.b2.addSide isReceita v }
  else if k = wkey today 3 then { s with b3 := s.b3.addSide isReceita v }
  else s

/-- Python's `x not in [...]` for an optional string: `None` is not a
member of a list of strings, so a SQL NULL plan label passes the test. -/
def pyNotIn (x : Option String) (l : List String) : Bool :=
  match x with
  | some s => !(l.contains s)
  | none => true

/-- `row['Recorrente'] == 'Sim' and row['Vezes Recorrencia'] > 1`
(the second conjunct; a NULL count compares as not greater than 1). -/
def vezesGt1 : Option Int → Bool
  | some n => 1 < n
  | none => false

/-- One iteration of the installment loop of the projection
(`financas8.py` lines 606-612): parse the date string (`ValueError` on
failure), then add `valor / n` to the receitas bucket of the parcel's
month when the parcel date lies strictly after today and its month is in
the window (`n` is `len(parcel_dates)`). -/
def stepParcel (today : Date) (n : Nat) (valor : ℚ) (st : ProjState)
    (str : String) : Except PyErr ProjState :=
  match strptimeYmd str with
  | none => .error .valueError
  | some p =>
    .ok (if dateLt today p then addBucket today (monthKey p) true (valor / n) st
         else st)

/-- The body of the per-transaction loop of the projection
(`financas8.py` lines 594-634):

* a `receita` adds its full `Valor` to its own month, then, when
  `Forma Recebimento` is not `"Parcela Única"`/`"Mais de 6x"` and the
  `Datas Parcelas Receita` payload is truthy, runs the installment loop;
* a `despesa` adds its full `Valor` to its own month when its `Status`
  is `'A Pagar'`, or `'Pago'` with a date at or after the first of the
  current month; then, when `Recorrente == 'Sim'` and
  `Vezes Recorrencia > 1`, the source evaluates
  `trans_date + pd.DateOffset(months=i).date()` — `.date()` is called on
  the `DateOffset`, which has no such attribute, so the first loop
  iteration raises `AttributeError`;
* any other `Tipo` leaves the state unchanged. -/
def processRow (today : Date) (s : ProjState) (row : Row) :
    Except PyErr ProjState :=
  let transKey := monthKey row.data
  if row.tipo == "receita" then
    let s1 := addBucket today transKey true row.valor s
    if pyNotIn row.formaRecebimento ["Parcela Única", "Mais de 6x"]
        && row.datasParcelas.isSome then
      match row.datasParcelas with
      | some ds => ds.foldlM (stepParcel today ds.length row.valor) s1
      | none => .ok s1
    else .ok s1
  else if row.tipo == "despesa" then
    let s1 :=
      if row.status == some "A Pagar" then
        addBucket today transKey false row.valor s
      else if row.status == some "Pago"
          && dateLe (firstOfMonth today) row.data then
        addBucket today transKey false row.valor s
      else s
    if row.recorrente == some "Sim" && vezesGt1 row.vezesRecorrencia then
      .error .attributeError
    else .ok s1
  else .ok s

/-- Folds the whole transaction DataFrame through the projection loop,
starting from the all-zero `projection_data`. -/
def foldRows (today : Date) (rows : List Row) : Except PyErr ProjState :=
  rows.foldlM (processRow today) projZero

/-- One line of the displayed projection table:
month key, `Receitas`, `Despesas`, `Saldo`. -/
structure MonthOut where
  month : Nat × Nat
  receitas : ℚ
  despesas : ℚ
  saldo : ℚ
deriving DecidableEq, Repr

/-- Derives the ordered four-month series from the final state,
computing `Saldo = Receitas - Despesas` per bucket
(`financas8.py` lines 636-638). -/
def series (today : Date) (s : ProjState) : List MonthOut :=
  [ { month := wkey today 0, receitas := s.b0.receitas,
      despesas := s.b0.despesas, saldo := s.b0.receitas - s.b0.despesas },
    { month := wkey today 1, receitas := s.b1.receitas,
      despesas := s.b1.despesas, saldo := s.b1.receitas - s.b1.despesas },
    { month := wkey today 2, receitas := s.b2.receitas,
      despesas := s.b2.despesas, saldo := s.b2.receitas - s.b2.despesas },
    { month := wkey today 3, receitas := s.b3.receitas,
      despesas := s.b3.despesas, saldo := s.b3.receitas - s.b3.despesas } ]

/-- The full cash-flow projection of `render_detailed_analysis_section`:
the four-month series, or the Python exception that aborted the loop. -/
def projectionTable (today : Date) (rows : List Row) :
    Except PyErr (List MonthOut) :=
  (foldRows today rows).map (series today)

/-! ### Additive structure of the projection state

Every update the projection loop performs is a `+=` on one bucket field,
so a processed row contributes an additive delta that is independent of
the accumulated state.  The instances below make that precise; they drive
the order-independence theorem for the aggregator. -/

instance : Add Bucket :=
  ⟨fun a b => ⟨a.receitas + b.receitas, a.despesas + b.despesas⟩⟩

instance : Zero Bucket := ⟨⟨0, 0⟩⟩

instance : AddCommMonoid Bucket where
  add_assoc a b c := by
    have hdef : ∀ x y : Bucket,
        x + y = ⟨x.receitas + y.receitas, x.despesas + y.despesas⟩ :=
      fun _ _ => rfl
    simp [hdef, add_assoc]
  zero_add a := by
    have hdef : ∀ x y : Bucket,
        x + y = ⟨x.receitas + y.receitas, x.despesas + y.despesas⟩ :=
      fun _ _ => rfl
    have hz : (0 : Bucket) = ⟨0, 0⟩ := rfl
    simp [hdef, hz]
  add_zero a := by
    have hdef : ∀ x y : Bucket,
        x + y = ⟨x.receitas + y.receitas, x.despesas + y.despesas⟩ :=
      fun _ _ => rfl
    have hz : (0 : Bucket) = ⟨0, 0⟩ := rfl
    simp [hdef, hz]
  add_comm a b := by
    have hdef : ∀ x y : Bucket,
        x + y = ⟨x.receitas + y.receitas, x.despesas + y.despesas⟩ :=
      fun _ _ => rfl
    simp only [hdef, Bucket.mk.injEq]
    exact ⟨add_comm _ _, add_comm _ _⟩
  nsmul := nsmulRec

instance : Add ProjState :=
  ⟨fun a b => ⟨a.b0 + b.b0, a.b1 + b.b1, a.b2 + b.b2, a.b3 + b.b3⟩⟩

instance : Zero ProjState := ⟨projZero⟩

instance : AddCommMonoid ProjState where
  add_assoc a b c := by
    have hdef : ∀ x y : ProjState,
        x + y = ⟨x.b0 + y.b0, x.b1 + y.b1, x.b2 + y.b2, x.b3 + y.b3⟩ :=
      fun _ _ => rfl
    simp [hdef, add_assoc]
  zero_add a := by
    have hdef : ∀ x y : ProjState,
        x + y = ⟨x.b0 + y.b0, x.b1 + y.b1, x.b2 + y.b2, x.b3 + y.b3⟩ :=
      fun _ _ => rfl
    have hz : (0 : ProjState) = ⟨0, 0, 0, 0⟩ := rfl
    simp [hdef, hz]
  add_zero a := by
    have hdef : ∀ x y : ProjState,
        x + y = ⟨x.b0 + y.b0, x.b1 + y.b1, x.b2 + y.b2, x.b3 + y.b3⟩ :=
      fun _ _ => rfl
    have hz : (0 : ProjState) = ⟨0, 0, 0, 0⟩ := rfl
    simp [hdef, hz]
  add_comm a b := by
    have hdef : ∀ x y : ProjState,
        x + y = ⟨x.b0 + y.b0, x.b1 + y.b1, x.b2 + y.b2, x.b3 + y.b3⟩ :=
      fun _ _ => rfl
    simp only [hdef, ProjState.mk.injEq]
    exact ⟨add_comm _ _, add_comm _ _, add_comm _ _, add_comm _ _⟩
  nsmul := nsmulRec

/-- The additive delta a single row contributes to `projection_data`
(the result of processing it from the all-zero state; immaterial filler
for a row whose processing raises). -/
def rowDelta (today : Date) (r : Row) : ProjState :=
  match processRow today 0 r with
  | .ok d => d
  | .error _ => 0

/-! ### The record store (`transacoes` table and its operations) -/

/-- One row of the SQLite `transacoes` table (`init_transactions_db`,
`financas8.py` lines 72-100).  `id` is assigned by AUTOINCREMENT; `data`
is the posting date string; `valor` the REAL amount, modelled as `ℚ`;
the TEXT/INTEGER columns that may be NULL are `Option`s. -/
structure TxRow where
  id : Nat
  username : String
  data : String
  descricao : String
  valor : ℚ
  tipo : String
  categoria : Option String
  responsavel : Option String
  banco : Option String
  forma_recebimento : Option String
  datas_parcelas_receita : Option String
  recorrente : Option String
  vezes_recorrencia : Option Int
  status : Option String
deriving DecidableEq, Repr

/-- The `transacoes` table: its ordered rows and the next AUTOINCREMENT id. -/
structure DB where
  rows : List TxRow
  nextId : Nat
deriving DecidableEq, Repr

/-- `add_transaction` (`financas8.py` lines 102-116): one INSERT with the
supplied column values, no validation of its own. -/
def add_transaction (db : DB) (username data descricao : String) (valor : ℚ)
    (tipo : String) (categoria responsavel banco forma_recebimento
    datas_parcelas_receita recorrente : Option String)
    (vezes_recorrencia : Option Int) (status : Option String) : DB :=
  { rows := db.rows ++
      [ { id := db.nextId, username := username, data := data,
          descricao := descricao, valor := valor, tipo := tipo,
          categoria := categoria, responsavel := responsavel, banco := banco,
          forma_recebimento := forma_recebimento,
          datas_parcelas_receita := datas_parcelas_receita,
          recorrente := recorrente, vezes_recorrencia := vezes_recorrencia,
          status := status } ],
    nextId := db.nextId + 1 }

/-- The WHERE clause `id = ? AND username = ?` shared by delete and update. -/
def rowMatches (transaction_id : Nat) (username : String) (r : TxRow) : Bool :=
  r.id == transaction_id && r.username == username

/-- `delete_transaction` (`financas8.py` lines 130-136):
`DELETE FROM transacoes WHERE id = ? AND username = ?`, returning
`cursor.rowcount > 0` together with the resulting table. -/
def delete_transaction (db : DB) (transaction_id : Nat) (username : String) :
    Bool × DB :=
  let keep := db.rows.filter (fun r => !(rowMatches transaction_id username r))
  (db.rows.any (rowMatches transaction_id username), { db with rows := keep })

/-- The `**kwargs` of `update_transaction`: the optional columns the table
editor of `render_transactions_table` may place in its `changes` dict. -/
structure Patch where
  descricao : Option String
  valor : Option ℚ
  categoria : Option String
  status : Option String
  responsavel : Option String
  banco : Option String
  forma_recebimento : Option String
  recorrente : Option String
  data : Option String
deriving DecidableEq, Repr

/-- Whether the `changes` dict is empty (an empty SET clause makes the
UPDATE statement malformed, so the `except` branch returns `False`). -/
def Patch.isEmpty (p : Patch) : Bool :=
  p.descricao.isNone && p.valor.isNone && p.categoria.isNone &&
    p.status.isNone && p.responsavel.isNone && p.banco.isNone &&
    p.forma_recebimento.isNone && p.recorrente.isNone && p.data.isNone

/-- Applies the SET clause of the UPDATE to one row: each supplied column
overwrites the stored value, the rest keep theirs. -/
def applyPatch (p : Patch) (r : TxRow) : TxRow :=
  { r with
    descricao := p.descricao.getD r.descricao,
    valor := p.valor.getD r.valor,
    categoria := (p.categoria.map some).getD r.categoria,
    status := (p.status.map some).getD r.status,
    responsavel := (p.responsavel.map some).getD r.responsavel,
    banco := (p.banco.map some).getD r.banco,
    forma_recebimento := (p.forma_recebimento.map some).getD
      r.forma_recebimento,
    recorrente := (p.recorrente.map some).getD r.recorrente,
    data := p.data.getD r.data }

/-- `update_transaction` (`financas8.py` lines 138-152):
`UPDATE transacoes SET ... WHERE id = ? AND username = ?`, returning
`cursor.rowcount > 0`; with no supplied fields the statement is malformed
and the `except` branch returns `False` leaving the table unchanged. -/
def update_transaction (db : DB) (transaction_id : Nat) (username : String)
    (p : Patch) : Bool × DB :=
  if p.isEmpty then (false, db)
  else
    let patched := db.rows.map
      (fun r => if rowMatches transaction_id username r then applyPatch p r
                else r)
    ( db.rows.any (rowMatches transaction_id username),
      { db with rows := patched } )

/-- `SELECT SUM(valor) ...`: SQL SUM is NULL over an empty selection,
otherwise the sum of the selected values. -/
def sqlSumValor (rows : List TxRow) : Option ℚ :=
  match rows with
  | [] => none
  | _ => some ((rows.map TxRow.valor).sum)

/-- `cursor.fetchone()[0] or 0.0`: Python `or` replaces the falsy values
(`None`, `0.0`) by `0.0`. -/
def pyOrZero (x : Option ℚ) : ℚ :=
  match x with
  | none => 0
  | some v => if v = 0 then 0 else v

/-- The first query of `get_summary` (`financas8.py` line 158):
total of `valor` over the user's `receita` rows. -/
def total_receitas (db : DB) (username : String) : ℚ :=
  pyOrZero (sqlSumValor (db.rows.filter
    (fun r => r.username == username && r.tipo == "receita")))

/-- The second query of `get_summary` (line 161): total of `valor` over
the user's `despesa` rows with status `'Pago'`. -/
def total_despesas_pagas (db : DB) (username : String) : ℚ :=
  pyOrZero (sqlSumValor (db.rows.filter
    (fun r => r.username == username && r.tipo == "despesa"
      && r.status == some "Pago")))

/-- The third query of `get_summary` (line 164): total of `valor` over
the user's `despesa` rows with status `'A Pagar'`. -/
def total_despesas_apagar (db : DB) (username : String) : ℚ :=
  pyOrZero (sqlSumValor (db.rows.filter
    (fun r => r.username == username && r.tipo == "despesa"
      && r.status == some "A Pagar")))

/-- `get_summary` (`financas8.py` lines 154-167): the triple of totals. -/
def get_summary (db : DB) (username : String) : ℚ × ℚ × ℚ :=
  (total_receitas db username, total_despesas_pagas db username,
    total_despesas_apagar db username)

/-- `saldo_projetado` of `render_overview_dashboard` (line 287):
`total_receitas - (total_despesas_pagas + total_despesas_apagar)`. -/
def saldo_projetado (db : DB) (username : String) : ℚ :=
  total_receitas db username -
    (total_despesas_pagas db username + total_despesas_apagar db username)

/-- The submit path of `render_unified_transaction_form`
(`financas8.py` lines 252-272): the guard `if not descricao or not valor`
rejects an empty description or a zero amount with an error message and
no INSERT; any other input is passed to `add_transaction`, which inserts
exactly one row. -/
def unified_form_submit (db : DB) (current_username data_str descricao :
    String) (valor : ℚ) (tipo : String) (categoria responsavel banco
    forma_recebimento datas recorrente : Option String)
    (vezes : Option Int) (status : Option String) : Option DB :=
  if descricao == "" || valor == 0 then none
  else some (add_transaction db current_username data_str descricao valor
    tipo categoria responsavel banco forma_recebimento datas recorrente
    vezes status)

/-! ### Credential hashing -/

/-- `make_hashes(password)` (`financas8.py` lines 27-29, `login.py` lines
5-7): `hashlib.sha256(str.encode(password)).hexdigest()`.  The composite
`hexdigest ∘ sha256 ∘ encode` is an external-library primitive, taken
here as the explicit parameter `sha256hex`. -/
def make_hashes (sha256hex : String → String) (password : String) : String :=
  sha256hex password

/-- `check_hashes(password, hashed_text)` (`financas8.py` lines 31-33,
`login.py` lines 9-11): hash the candidate password the same way and
compare for string equality. -/
def check_hashes (sha256hex : String → String)
    (password hashed_text : String) : Bool :=
  make_hashes sha256hex password == hashed_text

/-! ### Helper lemmas -/

theorem Bucket.add_components (a b : Bucket) :
    a + b = ⟨a.receitas + b.receitas, a.despesas + b.despesas⟩ := rfl

theorem ProjState.add_buckets (a b : ProjState) :
    a + b = ⟨a.b0 + b.b0, a.b1 + b.b1, a.b2 + b.b2, a.b3 + b.b3⟩ := rfl

theorem projZero_eq_zero : projZero = (0 : ProjState) := rfl

theorem Bucket.addSide_add (a b : Bucket) (r : Bool) (v : ℚ) :
    (a + b).addSide r v = a + b.addSide r v := by
  cases r <;> simp [Bucket.addSide, Bucket.add_components, add_assoc]

theorem addBucket_add (today : Date) (k : Nat × Nat) (r : Bool) (v : ℚ)
    (a s : ProjState) :
    addBucket today k r v (a + s) = a + addBucket today k r v s := by
  unfold addBucket
  split_ifs <;>
    simp [ProjState.add_buckets, Bucket.addSide_add]

theorem stepParcel_add (today : Date) (n : Nat) (valor : ℚ) (str : String)
    (a st : ProjState) :
    stepParcel today n valor (a + st) str =
      (stepParcel today n valor st str).map (a + ·) := by
  unfold stepParcel
  cases strptimeYmd str with
  | none => rfl
  | some p =>
    by_cases h : dateLt today p <;> simp [h, Except.map, addBucket_add]

theorem foldParcels_add (today : Date) (n : Nat) (valor : ℚ)
    (ds : List String) (a s : ProjState) :
    ds.foldlM (stepParcel today n valor) (a + s) =
      (ds.foldlM (stepParcel today n valor) s).map (a + ·) := by
  induction ds generalizing s with
  | nil => rfl
  | cons hd tl ih =>
    simp only [List.foldlM_cons]
    rw [stepParcel_add]
    cases h : stepParcel today n valor s hd with
    | error e => simp [Except.map, bind, Except.bind]
    | ok s2 => simp [Except.map, bind, Except.bind, ih]

theorem processRow_add (today : Date) (row : Row) (a s : ProjState) :
    processRow today (a + s) row = (processRow today s row).map (a + ·) := by
  unfold processRow
  by_cases hr : row.tipo == "receita"
  · simp only [hr, if_true]
    rw [addBucket_add]
    by_cases hc : pyNotIn row.formaRecebimento ["Parcela Única", "Mais de 6x"]
        && row.datasParcelas.isSome
    · simp only [hc, if_true]
      cases row.datasParcelas with
      | none => simp [Except.map]
      | some ds => simp [foldParcels_add]
    · simp [hc, Except.map]
  · simp only [hr, if_false]
    by_cases hd : row.tipo == "despesa"
    · simp only [hd, if_true]
      by_cases hrec : row.recorrente == some "Sim"
          && vezesGt1 row.vezesRecorrencia
      · simp [hrec, Except.map]
      · by_cases h1 : row.status == some "A Pagar"
        · simp [hrec, h1, Except.map, addBucket_add]
        · by_cases h2 : row.status == some "Pago"
              && dateLe (firstOfMonth today) row.data
          · simp [hrec, h1, h2, Except.map, addBucket_add]
          · simp [hrec, h1, h2, Except.map]
    · simp [hd, Except.map]

theorem processRow_eq_delta (today : Date) (s : ProjState) (row : Row)
    (h : (processRow today 0 row).isOk = true) :
    processRow today s row = .ok (s + rowDelta today row) := by
  have hs : processRow today (s + 0) row =
      (processRow today 0 row).map (s + ·) := processRow_add today row s 0
  rw [add_zero] at hs
  rw [hs]
  unfold rowDelta
  cases hz : processRow today 0 row with
  | error e => rw [hz] at h; simp [Except.isOk, Except.toBool] at h
  | ok d => simp [Except.map]

theorem foldlM_processRow_sum (today : Date) (rows : List Row) :
    ∀ s : ProjState, (∀ r ∈ rows, (processRow today 0 r).isOk = true) →
      rows.foldlM (processRow today) s =
        .ok (s + (rows.map (rowDelta today)).sum) := by
  induction rows with
  | nil => intro s _; simp [pure, Except.pure]
  | cons hd tl ih =>
    intro s hall
    have hhd := hall hd (by simp)
    have htl : ∀ r ∈ tl, (processRow today 0 r).isOk = true := by
      intro r hr; exact hall r (by simp [hr])
    simp only [List.foldlM_cons, processRow_eq_delta today s hd hhd]
    simp only [bind, Except.bind, ih _ htl]
    simp [add_assoc]

theorem foldlM_processRow_isOk (today : Date) (rows : List Row) :
    ∀ s : ProjState, (rows.foldlM (processRow today) s).isOk = true →
      ∀ r ∈ rows, (processRow today 0 r).isOk = true := by
  induction rows with
  | nil => intro s _ r hr; simp at hr
  | cons hd tl ih =>
    intro s hok r hr
    rw [List.foldlM_cons] at hok
    cases hs : processRow today s hd with
    | error e =>
      rw [hs] at hok
      simp [bind, Except.bind, Except.isOk, Except.toBool] at hok
    | ok s2 =>
      rw [hs] at hok
      simp only [bind, Except.bind] at hok
      rcases List.mem_cons.mp hr with h | h
      · subst h
        have := processRow_add today r s 0
        rw [add_zero] at this
        rw [this] at hs
        cases hz : processRow today 0 r with
        | error e => rw [hz] at hs; simp [Except.map] at hs
        | ok d => simp [Except.isOk, Except.toBool]
      · exact ih s2 hok r h

theorem foldParcels_parsed (today : Date) (n : Nat) (valor : ℚ) :
    ∀ (ds : List String) (pds : List Date) (s : ProjState),
      List.Forall₂ (fun str d => strptimeYmd str = some d) ds pds →
      ds.foldlM (stepParcel today n valor) s =
        .ok (pds.foldl
          (fun st d => if dateLt today d
            then addBucket today (monthKey d) true (valor / n) st else st)
          s) := by
  intro ds pds s hf
  induction hf generalizing s with
  | nil => rfl
  | cons hrel htl ih =>
    rename_i str d ds2 pds2
    simp only [List.foldlM_cons, List.foldl_cons]
    have hstep : stepParcel today n valor s str =
        .ok (if dateLt today d
          then addBucket today (monthKey d) true (valor / n) s else s) := by
      simp [stepParcel, hrel]
    rw [hstep]
    simp only [bind, Except.bind]
    exact ih _

/-! ### Claim theorems -/

/-- C1: the spec claims a recurring Expense with `recurrence_count = N > 1`
makes the Expander emit N−1 additional full-amount contributions dated at
`date + k` months, filtered to dates strictly after today inside the
window.  In the source (`financas8.py` line 630, and identically
`financas5.py` line 435) the loop body evaluates
`trans_date + pd.DateOffset(months=i).date()`: attribute access binds
tighter than `+`, `.date()` is invoked on the `DateOffset` object, and the
first iteration raises `AttributeError`, aborting the whole projection.
Concretely, the recurring Expense of the spec's own example (amount 100,
dated 2024-01-15, `recurrence_count = 3`) makes the projection raise
instead of producing any series. -/
theorem c1_recurring_expense_raises_attribute_error :
    projectionTable ⟨2024, 1, 10⟩
      [ { data := ⟨2024, 1, 15⟩, valor := 100, tipo := "despesa",
          formaRecebimento := none, datasParcelas := none,
          recorrente := some "Sim", vezesRecorrencia := some 3,
          status := some "A Pagar" } ] =
      .error .attributeError := by
  simp [projectionTable, foldRows, processRow, vezesGt1, bind, Except.bind,
    Except.map]

/-- C2: an Income whose plan label is none of the excluded ones
(`"Parcela Única"`, `"Mais de 6x"` — so in particular the N-installment
labels `"2x"` … `"6x"` with N > 1) and whose installment-date list is
present with N parseable entries contributes `amount / N` to the month of
each installment date that is strictly after today (window membership is
enforced inside `addBucket`; dates not after today contribute nothing),
in addition to — not replacing — the full-amount contribution to the
month of the transaction's own date. -/
theorem c2_income_installments_additional (today : Date) (s : ProjState)
    (row : Row) (f : String) (ds : List String) (pds : List Date)
    (htipo : row.tipo = "receita")
    (hforma : row.formaRecebimento = some f)
    (hplan : f ∉ ["Parcela Única", "Mais de 6x"])
    (hdatas : row.datasParcelas = some ds)
    (hparse : List.Forall₂ (fun str d => strptimeYmd str = some d) ds pds) :
    processRow today s row =
      .ok (pds.foldl
        (fun st d => if dateLt today d
          then addBucket today (monthKey d) true (row.valor / ds.length) st
          else st)
        (addBucket today (monthKey row.data) true row.valor s)) := by
  have h1 : f ≠ "Parcela Única" := fun h => hplan (by simp [h])
  have h2 : f ≠ "Mais de 6x" := fun h => hplan (by simp [h])
  have hnotin : pyNotIn row.formaRecebimento ["Parcela Única", "Mais de 6x"]
      = true := by
    simp [pyNotIn, hforma, h1, h2]
  unfold processRow
  simp only [htipo, beq_self_eq_true, if_true, hdatas, hnotin,
    Option.isSome_some, Bool.and_self]
  exact foldParcels_parsed today ds.length row.valor ds pds _ hparse

/-- Witness for C2: an Income of 200 recorded 2024-05-01 with plan "2x"
and installments on 2024-06-15 and 2024-07-15, seen from 2024-05-10,
lands 200 in the record month and 100 in each installment month — three
contributions in all. -/
theorem c2_income_installments_additional_witness :
    processRow ⟨2024, 5, 10⟩ projZero
      { data := ⟨2024, 5, 1⟩, valor := 200, tipo := "receita",
        formaRecebimento := some "2x",
        datasParcelas := some ["2024-06-15", "2024-07-15"],
        recorrente := none, vezesRecorrencia := none, status := none } =
      .ok ⟨⟨200, 0⟩, ⟨100, 0⟩, ⟨100, 0⟩, ⟨0, 0⟩⟩ := by
  have h := c2_income_installments_additional ⟨2024, 5, 10⟩ projZero
    { data := ⟨2024, 5, 1⟩, valor := 200, tipo := "receita",
      formaRecebimento := some "2x",
      datasParcelas := some ["2024-06-15", "2024-07-15"],
      recorrente := none, vezesRecorrencia := none, status := none }
    "2x" ["2024-06-15", "2024-07-15"] [⟨2024, 6, 15⟩, ⟨2024, 7, 15⟩]
    rfl rfl (by decide) rfl
    (List.Forall₂.cons (by decide)
      (List.Forall₂.cons (by decide) List.Forall₂.nil))
  rw [h]
  simp [addBucket, wkey, addMonths, monthKey, daysInMonth, isLeap,
    projZero, Bucket.addSide, dateLt]
  norm_num

/-- C3: the concrete two-transaction scenario (Income 1000 `"Parcela
Única"`, Expense 300 `'Pago'`, both in the current month) produces
income 1000, expense 300, balance 700 in the current-month bucket and
zeros in the three later buckets; and in every bucket of any produced
series, balance = income − expense. -/
theorem c3_aggregator_scenario_and_balance :
    (projectionTable ⟨2024, 5, 10⟩
      [ { data := ⟨2024, 5, 10⟩, valor := 1000, tipo := "receita",
          formaRecebimento := some "Parcela Única", datasParcelas := none,
          recorrente := none, vezesRecorrencia := none, status := none },
        { data := ⟨2024, 5, 10⟩, valor := 300, tipo := "despesa",
          formaRecebimento := none, datasParcelas := none,
          recorrente := some "Não", vezesRecorrencia := some 1,
          status := some "Pago" } ] =
      .ok [ ⟨(2024, 5), 1000, 300, 700⟩, ⟨(2024, 6), 0, 0, 0⟩,
            ⟨(2024, 7), 0, 0, 0⟩, ⟨(2024, 8), 0, 0, 0⟩ ]) ∧
    (∀ (today : Date) (rows : List Row) (out : List MonthOut),
      projectionTable today rows = .ok out →
      ∀ mo ∈ out, mo.saldo = mo.receitas - mo.despesas) := by
  constructor
  · simp [projectionTable, foldRows, processRow, series, addBucket, wkey,
      addMonths, monthKey, daysInMonth, isLeap, firstOfMonth, dateLe,
      dateLt, pyNotIn, vezesGt1, projZero, Bucket.addSide, Except.map,
      bind, Except.bind, pure, Except.pure]
    norm_num
  · intro today rows out h mo hmo
    unfold projectionTable at h
    cases hf : foldRows today rows with
    | error e => rw [hf] at h; simp [Except.map] at h
    | ok st =>
      rw [hf] at h
      simp only [Except.map, Except.ok.injEq] at h
      subst h
      simp only [series, List.mem_cons, List.not_mem_nil, or_false] at hmo
      rcases hmo with h | h | h | h <;> subst h <;> rfl

/-- Witness for C3's general balance law, read off from the scenario's
current-month bucket. -/
theorem c3_aggregator_scenario_and_balance_witness :
    (⟨(2024, 5), 1000, 300, 700⟩ : MonthOut).saldo =
      (⟨(2024, 5), 1000, 300, 700⟩ : MonthOut).receitas -
        (⟨(2024, 5), 1000, 300, 700⟩ : MonthOut).despesas := by
  have h := c3_aggregator_scenario_and_balance
  exact h.2 ⟨2024, 5, 10⟩
    [ { data := ⟨2024, 5, 10⟩, valor := 1000, tipo := "receita",
        formaRecebimento := some "Parcela Única", datasParcelas := none,
        recorrente := none, vezesRecorrencia := none, status := none },
      { data := ⟨2024, 5, 10⟩, valor := 300, tipo := "despesa",
        formaRecebimento := none, datasParcelas := none,
        recorrente := some "Não", vezesRecorrencia := some 1,
        status := some "Pago" } ]
    [ ⟨(2024, 5), 1000, 300, 700⟩, ⟨(2024, 6), 0, 0, 0⟩,
      ⟨(2024, 7), 0, 0, 0⟩, ⟨(2024, 8), 0, 0, 0⟩ ]
    h.1 ⟨(2024, 5), 1000, 300, 700⟩ (by simp)

/-- C4 counterexample: the claim says malformed installment data yields
zero installment expansion and never aborts the projection.  Both halves
fail on the source.  (1) For an Income whose plan label `"Outro"` denotes
no integer count but whose date payload is present, the expander still
expands: the 2024-06 bucket receives `100 / 1 = 100` from the single
payload date, not zero.  (2) For an Income whose payload contains the
unparsable date `"oops"`, `datetime.strptime` raises `ValueError` and the
whole projection aborts, losing the following well-formed Income of 50 as
well. -/
theorem c4_malformed_installments_counterexample :
    (projectionTable ⟨2024, 5, 10⟩
      [ { data := ⟨2024, 5, 3⟩, valor := 100, tipo := "receita",
          formaRecebimento := some "Outro",
          datasParcelas := some ["2024-06-15"],
          recorrente := none, vezesRecorrencia := none, status := none } ] =
      .ok [ ⟨(2024, 5), 100, 0, 100⟩, ⟨(2024, 6), 100, 0, 100⟩,
            ⟨(2024, 7), 0, 0, 0⟩, ⟨(2024, 8), 0, 0, 0⟩ ]) ∧
    (projectionTable ⟨2024, 5, 10⟩
      [ { data := ⟨2024, 5, 3⟩, valor := 100, tipo := "receita",
          formaRecebimento := some "2x",
          datasParcelas := some ["oops", "2024-06-15"],
          recorrente := none, vezesRecorrencia := none, status := none },
        { data := ⟨2024, 5, 4⟩, valor := 50, tipo := "receita",
          formaRecebimento := some "Parcela Única", datasParcelas := none,
          recorrente := none, vezesRecorrencia := none, status := none } ] =
      .error .valueError) := by
  constructor
  · simp [projectionTable, foldRows, processRow, series, addBucket, wkey,
      addMonths, monthKey, daysInMonth, isLeap, pyNotIn, stepParcel,
      dateLt, projZero, Bucket.addSide, Except.map, bind, Except.bind,
      pure, Except.pure, strptimeYmd, splitDash, digitGroupToNat]
  · simp [projectionTable, foldRows, processRow, pyNotIn, stepParcel,
      Except.map, bind, Except.bind, pure, Except.pure, strptimeYmd,
      splitDash, digitGroupToNat]

/-- C4 amended: (a) a transaction whose installment-date payload is absent
(NULL or empty — in particular any plan label that denotes no integer
count, for which the form stores no payload) gets zero installment
expansion, only the direct month-of-record contribution; (b) a present
payload whose first entry is unparsable raises `ValueError` instead of
degrading; (c) a raising transaction aborts the projection for all
remaining transactions. -/
theorem c4_malformed_installments_amended :
    (∀ (today : Date) (s : ProjState) (row : Row),
      row.tipo = "receita" → row.datasParcelas = none →
      processRow today s row =
        .ok (addBucket today (monthKey row.data) true row.valor s)) ∧
    (∀ (today : Date) (s : ProjState) (row : Row) (str : String)
        (rest : List String),
      row.tipo = "receita" →
      pyNotIn row.formaRecebimento ["Parcela Única", "Mais de 6x"] = true →
      row.datasParcelas = some (str :: rest) →
      strptimeYmd str = none →
      processRow today s row = .error .valueError) ∧
    (∀ (today : Date) (row : Row) (rest : List Row) (e : PyErr),
      processRow today projZero row = .error e →
      projectionTable today (row :: rest) = .error e) := by
  refine ⟨?_, ?_, ?_⟩
  · intro today s row htipo hdatas
    unfold processRow
    simp [htipo, hdatas]
  · intro today s row str rest htipo hforma hdatas hbad
    unfold processRow
    simp [htipo, hforma, hdatas, stepParcel, hbad, bind, Except.bind]
  · intro today row rest e h
    unfold projectionTable foldRows
    simp [h, bind, Except.bind, Except.map]

/-- Witness for C4's amended statement: a plan label `"Outro"` with no
payload yields only the direct contribution; an `"oops"` first payload
entry raises; a raising head transaction aborts the projection. -/
theorem c4_malformed_installments_amended_witness :
    (processRow ⟨2024, 5, 10⟩ projZero
      { data := ⟨2024, 5, 3⟩, valor := 100, tipo := "receita",
        formaRecebimento := some "Outro", datasParcelas := none,
        recorrente := none, vezesRecorrencia := none, status := none } =
      .ok (addBucket ⟨2024, 5, 10⟩ (2024, 5) true 100 projZero)) ∧
    (processRow ⟨2024, 5, 10⟩ projZero
      { data := ⟨2024, 5, 3⟩, valor := 100, tipo := "receita",
        formaRecebimento := some "2x", datasParcelas := some ["oops"],
        recorrente := none, vezesRecorrencia := none, status := none } =
      .error .valueError) ∧
    (projectionTable ⟨2024, 5, 10⟩
      [ { data := ⟨2024, 5, 3⟩, valor := 100, tipo := "receita",
          formaRecebimento := some "2x", datasParcelas := some ["oops"],
          recorrente := none, vezesRecorrencia := none, status := none } ] =
      .error .valueError) := by
  have h := c4_malformed_installments_amended
  have h2 := h.2.1 ⟨2024, 5, 10⟩ projZero
    { data := ⟨2024, 5, 3⟩, valor := 100, tipo := "receita",
      formaRecebimento := some "2x", datasParcelas := some ["oops"],
      recorrente := none, vezesRecorrencia := none, status := none }
    "oops" [] rfl (by decide) rfl (by decide)
  refine ⟨?_, h2, ?_⟩
  · exact h.1 ⟨2024, 5, 10⟩ projZero _ rfl rfl
  · exact h.2.2 ⟨2024, 5, 10⟩ _ [] .valueError h2

/-- C5 counterexample: the claim says a create call with a non-positive
amount is rejected with no row inserted.  The source's only guard is
`if not descricao or not valor`, which a negative amount passes (it is
truthy), so a create with amount −5 inserts a row. -/
theorem c5_create_negative_amount_counterexample :
    unified_form_submit ⟨[], 1⟩ "u" "2024-01-01" "conta" (-5) "despesa"
      (some "Contas Fixas") none none none none (some "Não") none
      (some "A Pagar") =
      some ⟨[ { id := 1, username := "u", data := "2024-01-01",
                descricao := "conta", valor := -5, tipo := "despesa",
                categoria := some "Contas Fixas", responsavel := none,
                banco := none, forma_recebimento := none,
                datas_parcelas_receita := none, recorrente := some "Não",
                vezes_recorrencia := none, status := some "A Pagar" } ],
            2⟩ := by
  simp [unified_form_submit, add_transaction]

/-- C5 amended: the create path rejects (and inserts nothing) exactly when
the description is empty or the amount is zero/missing; every other call —
including one with a negative amount — appends exactly one row with the
supplied fields and the next AUTOINCREMENT id. -/
theorem c5_create_validation_amended (db : DB)
    (u ds desc : String) (valor : ℚ) (tipo : String)
    (cat resp banco forma datas rec : Option String) (vez : Option Int)
    (status : Option String) :
    ((desc = "" ∨ valor = 0) →
      unified_form_submit db u ds desc valor tipo cat resp banco forma
        datas rec vez status = none) ∧
    (desc ≠ "" → valor ≠ 0 →
      unified_form_submit db u ds desc valor tipo cat resp banco forma
        datas rec vez status =
      some { rows := db.rows ++
               [ { id := db.nextId, username := u, data := ds,
                   descricao := desc, valor := valor, tipo := tipo,
                   categoria := cat, responsavel := resp, banco := banco,
                   forma_recebimento := forma,
                   datas_parcelas_receita := datas, recorrente := rec,
                   vezes_recorrencia := vez, status := status } ],
             nextId := db.nextId + 1 }) := by
  constructor
  · intro h
    unfold unified_form_submit
    rcases h with h | h <;> simp [h]
  · intro h1 h2
    unfold unified_form_submit
    simp [h1, h2, add_transaction]

/-- Witness for C5's amended statement: the rejection of an empty
description, and the acceptance of a negative amount, at concrete
inputs. -/
theorem c5_create_validation_amended_witness :
    (unified_form_submit ⟨[], 1⟩ "u" "2024-01-01" "" 10 "despesa"
      none none none none none none none none = none) ∧
    (unified_form_submit ⟨[], 1⟩ "u" "2024-01-01" "conta" (-5) "despesa"
      none none none none none none none none =
      some { rows := [ { id := 1, username := "u", data := "2024-01-01",
                         descricao := "conta", valor := -5,
                         tipo := "despesa", categoria := none,
                         responsavel := none, banco := none,
                         forma_recebimento := none,
                         datas_parcelas_receita := none,
                         recorrente := none, vezes_recorrencia := none,
                         status := none } ],
             nextId := 2 }) := by
  constructor
  · exact (c5_create_validation_amended ⟨[], 1⟩ "u" "2024-01-01" "" 10
      "despesa" none none none none none none none none).1 (Or.inl rfl)
  · exact (c5_create_validation_amended ⟨[], 1⟩ "u" "2024-01-01" "conta"
      (-5) "despesa" none none none none none none none none).2
      (by decide) (by norm_num)

/-- C6: for a fixed `today` and the fixed four-month window, the
aggregator is an order-independent fold — any permutation of the input
transaction sequence that produces a series produces the identical
series.  (Amounts are exact rationals here; the fold is a sum of
per-transaction deltas, and a permutation neither changes the deltas nor
whether any transaction raises.) -/
theorem c6_aggregation_order_independent (today : Date)
    (rows rows2 : List Row) (hp : rows.Perm rows2) (out : List MonthOut)
    (h : projectionTable today rows = .ok out) :
    projectionTable today rows2 = .ok out := by
  have hok : (rows.foldlM (processRow today) projZero).isOk = true := by
    unfold projectionTable foldRows at h
    cases hf : rows.foldlM (processRow today) projZero with
    | error e => rw [hf] at h; simp [Except.map] at h
    | ok st => rfl
  have hall : ∀ r ∈ rows, (processRow today 0 r).isOk = true :=
    foldlM_processRow_isOk today rows projZero hok
  have hall2 : ∀ r ∈ rows2, (processRow today 0 r).isOk = true := by
    intro r hr
    exact hall r (hp.mem_iff.mpr hr)
  have e1 := foldlM_processRow_sum today rows projZero hall
  have e2 := foldlM_processRow_sum today rows2 projZero hall2
  have hsum : (rows.map (rowDelta today)).sum =
      (rows2.map (rowDelta today)).sum :=
    List.Perm.sum_eq (hp.map (rowDelta today))
  unfold projectionTable foldRows at h ⊢
  rw [e2, ← hsum, ← e1]
  exact h

/-- Witness for C6: swapping an Income of 500 and a Pending Expense of
200 leaves the four-month series unchanged. -/
theorem c6_aggregation_order_independent_witness :
    projectionTable ⟨2024, 5, 10⟩
      [ { data := ⟨2024, 6, 20⟩, valor := 200, tipo := "despesa",
          formaRecebimento := none, datasParcelas := none,
          recorrente := some "Não", vezesRecorrencia := some 1,
          status := some "A Pagar" },
        { data := ⟨2024, 5, 2⟩, valor := 500, tipo := "receita",
          formaRecebimento := some "Parcela Única", datasParcelas := none,
          recorrente := none, vezesRecorrencia := none, status := none } ] =
      .ok [ ⟨(2024, 5), 500, 0, 500⟩, ⟨(2024, 6), 0, 200, -200⟩,
            ⟨(2024, 7), 0, 0, 0⟩, ⟨(2024, 8), 0, 0, 0⟩ ] := by
  refine c6_aggregation_order_independent ⟨2024, 5, 10⟩
    [ { data := ⟨2024, 5, 2⟩, valor := 500, tipo := "receita",
        formaRecebimento := some "Parcela Única", datasParcelas := none,
        recorrente := none, vezesRecorrencia := none, status := none },
      { data := ⟨2024, 6, 20⟩, valor := 200, tipo := "despesa",
        formaRecebimento := none, datasParcelas := none,
        recorrente := some "Não", vezesRecorrencia := some 1,
        status := some "A Pagar" } ]
    _ (List.Perm.swap _ _ _) _ ?_
  simp [projectionTable, foldRows, processRow, series, addBucket, wkey,
    addMonths, monthKey, daysInMonth, isLeap, firstOfMonth, dateLe,
    dateLt, pyNotIn, vezesGt1, projZero, Bucket.addSide, Except.map,
    bind, Except.bind, pure, Except.pure]

/-- Evaluates the `or 0.0` coalescing of a SQL SUM: the result always
equals the plain sum of the selected amounts (0 for an empty selection,
never NULL). -/
theorem pyOrZero_sqlSum (l : List TxRow) :
    pyOrZero (sqlSumValor l) = (l.map TxRow.valor).sum := by
  cases l with
  | nil => rfl
  | cons hd tl =>
    have hdef : pyOrZero (sqlSumValor (hd :: tl)) =
        if ((hd :: tl).map TxRow.valor).sum = 0 then 0
        else ((hd :: tl).map TxRow.valor).sum := rfl
    rw [hdef]
    split_ifs with h
    · exact h.symm
    · rfl

/-- C7: the paid-expense total of `get_summary` equals the sum of `valor`
over exactly the rows of that owner with kind `despesa` and status
`'Pago'`, and each of the three totals is 0 — never NULL/absent — when no
row matches its filter. -/
theorem c7_sum_by_paid_expenses (db : DB) (u : String) :
    (total_despesas_pagas db u =
      ((db.rows.filter (fun r => r.username == u && r.tipo == "despesa"
        && r.status == some "Pago")).map TxRow.valor).sum) ∧
    ((db.rows.filter (fun r => r.username == u && r.tipo == "despesa"
        && r.status == some "Pago")) = [] →
      total_despesas_pagas db u = 0) ∧
    ((db.rows.filter (fun r => r.username == u && r.tipo == "receita")) = []
      → total_receitas db u = 0) ∧
    ((db.rows.filter (fun r => r.username == u && r.tipo == "despesa"
        && r.status == some "A Pagar")) = [] →
      total_despesas_apagar db u = 0) := by
  refine ⟨?_, ?_, ?_, ?_⟩
  · unfold total_despesas_pagas
    exact pyOrZero_sqlSum _
  · intro hempty
    unfold total_despesas_pagas
    rw [hempty]
    rfl
  · intro hempty
    unfold total_receitas
    rw [hempty]
    rfl
  · intro hempty
    unfold total_despesas_apagar
    rw [hempty]
    rfl

/-- Witness for C7: an owner with no rows gets 0 from every total. -/
theorem c7_sum_by_paid_expenses_witness :
    total_despesas_pagas ⟨[], 1⟩ "alice" = 0 ∧
    total_receitas ⟨[], 1⟩ "alice" = 0 ∧
    total_despesas_apagar ⟨[], 1⟩ "alice" = 0 := by
  have h := c7_sum_by_paid_expenses ⟨[], 1⟩ "alice"
  exact ⟨h.2.1 rfl, h.2.2.1 rfl, h.2.2.2 rfl⟩

/-- C8: when no stored row carries both the requested id and the calling
owner — missing id or a row of another owner — `delete_transaction`
returns `False` and removes nothing, and `update_transaction` returns
`False` and changes nothing; moreover a row belonging to a different
owner survives both operations untouched. -/
theorem c8_delete_update_owner_scoped (db : DB) (tid : Nat) (u : String)
    (p : Patch) :
    ((∀ r ∈ db.rows, ¬(r.id = tid ∧ r.username = u)) →
      delete_transaction db tid u = (false, db) ∧
      update_transaction db tid u p = (false, db)) ∧
    (∀ r ∈ db.rows, r.username ≠ u →
      r ∈ (delete_transaction db tid u).2.rows ∧
      r ∈ (update_transaction db tid u p).2.rows) := by
  constructor
  · intro h
    have hm : ∀ r ∈ db.rows, rowMatches tid u r = false := by
      intro r hr
      cases hb : rowMatches tid u r
      · rfl
      · exfalso
        simp only [rowMatches, Bool.and_eq_true, beq_iff_eq] at hb
        exact h r hr ⟨hb.1, hb.2⟩
    have hany : db.rows.any (rowMatches tid u) = false := by
      rw [List.any_eq_false]
      intro r hr
      simp [hm r hr]
    have hfil : db.rows.filter (fun r => !(rowMatches tid u r)) = db.rows :=
      List.filter_eq_self.mpr (fun r hr => by simp [hm r hr])
    have hmap : db.rows.map
        (fun r => if rowMatches tid u r then applyPatch p r else r) =
        db.rows := by
      have hcg : ∀ r ∈ db.rows,
          (if rowMatches tid u r then applyPatch p r else r) = id r := by
        intro r hr
        simp [hm r hr]
      rw [List.map_congr_left hcg, List.map_id]
    constructor
    · simp [delete_transaction, hany, hfil]
    · unfold update_transaction
      by_cases he : p.isEmpty <;> simp [he, hany, hmap]
  · intro r hr hneq
    have hmr : rowMatches tid u r = false := by
      simp [rowMatches, hneq]
    constructor
    · exact List.mem_filter.mpr ⟨hr, by simp [hmr]⟩
    · unfold update_transaction
      by_cases he : p.isEmpty
      · simpa [he] using hr
      · simp only [he, if_false]
        exact List.mem_map.mpr ⟨r, hr, by simp [hmr]⟩

/-- Witness for C8: owner "alice" can neither delete nor update row 1,
which belongs to "bob"; the table is unchanged. -/
theorem c8_delete_update_owner_scoped_witness :
    delete_transaction
      ⟨[ { id := 1, username := "bob", data := "2024-01-01",
           descricao := "conta", valor := 75, tipo := "despesa",
           categoria := none, responsavel := none, banco := none,
           forma_recebimento := none, datas_parcelas_receita := none,
           recorrente := none, vezes_recorrencia := none,
           status := some "Pago" } ], 2⟩ 1 "alice" =
      (false, ⟨[ { id := 1, username := "bob", data := "2024-01-01",
                   descricao := "conta", valor := 75, tipo := "despesa",
                   categoria := none, responsavel := none, banco := none,
                   forma_recebimento := none, datas_parcelas_receita := none,
                   recorrente := none, vezes_recorrencia := none,
                   status := some "Pago" } ], 2⟩) ∧
    update_transaction
      ⟨[ { id := 1, username := "bob", data := "2024-01-01",
           descricao := "conta", valor := 75, tipo := "despesa",
           categoria := none, responsavel := none, banco := none,
           forma_recebimento := none, datas_parcelas_receita := none,
           recorrente := none, vezes_recorrencia := none,
           status := some "Pago" } ], 2⟩ 1 "alice"
      ⟨some "nova", none, none, none, none, none, none, none, none⟩ =
      (false, ⟨[ { id := 1, username := "bob", data := "2024-01-01",
                   descricao := "conta", valor := 75, tipo := "despesa",
                   categoria := none, responsavel := none, banco := none,
                   forma_recebimento := none, datas_parcelas_receita := none,
                   recorrente := none, vezes_recorrencia := none,
                   status := some "Pago" } ], 2⟩) := by
  refine (c8_delete_update_owner_scoped _ 1 "alice" _).1 ?_
  intro r hr
  rcases List.mem_singleton.mp hr with rfl
  rintro ⟨-, h2⟩
  exact absurd h2 (by decide)

/-- C9 (implicit): an Expense row whose status is neither `'Pago'` nor
`'A Pagar'` (for example NULL) is counted in neither the paid-expense
total nor the to-pay-expense total of `get_summary`, so appending such a
row leaves both expense totals and the projected balance
`total_receitas - (total_despesas_pagas + total_despesas_apagar)`
unchanged. -/
theorem c9_unclassified_expense_uncounted (db : DB) (u : String)
    (r : TxRow) (htipo : r.tipo = "despesa") (_husr : r.username = u)
    (hpago : r.status ≠ some "Pago") (hapagar : r.status ≠ some "A Pagar") :
    total_despesas_pagas ⟨db.rows ++ [r], db.nextId⟩ u =
      total_despesas_pagas db u ∧
    total_despesas_apagar ⟨db.rows ++ [r], db.nextId⟩ u =
      total_despesas_apagar db u ∧
    saldo_projetado ⟨db.rows ++ [r], db.nextId⟩ u = saldo_projetado db u := by
  have hfp : (r.status == some "Pago") = false := by simp [hpago]
  have hfa : (r.status == some "A Pagar") = false := by simp [hapagar]
  have hrt : (r.tipo == "receita") = false := by simp [htipo]
  have h1 : total_despesas_pagas ⟨db.rows ++ [r], db.nextId⟩ u =
      total_despesas_pagas db u := by
    unfold total_despesas_pagas
    simp [List.filter_append, hfp]
  have h2 : total_despesas_apagar ⟨db.rows ++ [r], db.nextId⟩ u =
      total_despesas_apagar db u := by
    unfold total_despesas_apagar
    simp [List.filter_append, hfa]
  have h3 : total_receitas ⟨db.rows ++ [r], db.nextId⟩ u =
      total_receitas db u := by
    unfold total_receitas
    simp [List.filter_append, hrt]
  refine ⟨h1, h2, ?_⟩
  unfold saldo_projetado
  rw [h1, h2, h3]

/-- Witness for C9: a NULL-status Expense of 80 appended for "alice"
changes neither expense total nor the projected balance. -/
theorem c9_unclassified_expense_uncounted_witness :
    total_despesas_pagas
      ⟨[ { id := 1, username := "alice", data := "2024-02-02",
           descricao := "x", valor := 80, tipo := "despesa",
           categoria := none, responsavel := none, banco := none,
           forma_recebimento := none, datas_parcelas_receita := none,
           recorrente := none, vezes_recorrencia := none,
           status := none } ], 1⟩ "alice" =
      total_despesas_pagas ⟨[], 1⟩ "alice" ∧
    total_despesas_apagar
      ⟨[ { id := 1, username := "alice", data := "2024-02-02",
           descricao := "x", valor := 80, tipo := "despesa",
           categoria := none, responsavel := none, banco := none,
           forma_recebimento := none, datas_parcelas_receita := none,
           recorrente := none, vezes_recorrencia := none,
           status := none } ], 1⟩ "alice" =
      total_despesas_apagar ⟨[], 1⟩ "alice" ∧
    saldo_projetado
      ⟨[ { id := 1, username := "alice", data := "2024-02-02",
           descricao := "x", valor := 80, tipo := "despesa",
           categoria := none, responsavel := none, banco := none,
           forma_recebimento := none, datas_parcelas_receita := none,
           recorrente := none, vezes_recorrencia := none,
           status := none } ], 1⟩ "alice" =
      saldo_projetado ⟨[], 1⟩ "alice" :=
  c9_unclassified_expense_uncounted ⟨[], 1⟩ "alice" _ rfl rfl
    (by decide) (by decide)

/-- C10 (implicit): `check_hashes(p, make_hashes(p))` is always true, and
`check_hashes(q, make_hashes(p))` is true exactly when the stored hash
function gives equal digests for `q` and `p` — credential verification is
a deterministic round-trip of the hashing function. -/
theorem c10_check_hashes_roundtrip (sha256hex : String → String)
    (p q : String) :
    check_hashes sha256hex p (make_hashes sha256hex p) = true ∧
    (check_hashes sha256hex q (make_hashes sha256hex p) = true ↔
      sha256hex q = sha256hex p) := by
  constructor
  · simp [check_hashes, make_hashes]
  · simp [check_hashes, make_hashes]
